import Mathlib

/-!
Verification of the HTML structural extraction pipeline and HTTP endpoint
behaviour of `app.py` (custom-search).  The HTML node tree produced by the
parser is modelled as an inductive tree; the extraction code of `api_scrape`
(lines 114-149) and the endpoint plumbing of both endpoints are embedded as
executable Lean functions, translated clause by clause from the source.
-/

set_option autoImplicit false

namespace CustomSearch

/-! ## Python string primitives -/

/-- Whitespace characters recognised by Python's `str.strip()` (ASCII part). -/
def isPySpace (c : Char) : Bool :=
  c = ' ' ∨ c = '\t' ∨ c = '\n' ∨ c = '\r' ∨ c = '\x0b' ∨ c = '\x0c'

/-- `str.strip()` on a character list: drop whitespace from both ends. -/
def pyStripList (l : List Char) : List Char :=
  ((l.dropWhile isPySpace).reverse.dropWhile isPySpace).reverse

/-- Model of Python `str.strip()`. -/
def pyStrip (s : String) : String :=
  ⟨pyStripList s.data⟩

/-- `"".join(ss)`: concatenation of a list of strings. -/
def joinStrings : List String → String
  | [] => ""
  | s :: ss => s ++ joinStrings ss

/-! ## The HTML node tree

`BeautifulSoup(response.text, 'lxml')` produces a navigable tree of tags and
strings; we model it after parsing.  A document is the list of top-level
nodes of the soup. -/

/-- A parsed HTML node: an element (`Tag`) with a name and children, or a
text node (`NavigableString`). -/
inductive Node where
  | elem (tag : String) (children : List Node)
  | text (s : String)

/-- All descendant text-node contents of a forest, in document order
(`Tag.descendants` restricted to strings). -/
def nodesTexts : List Node → List String
  | [] => []
  | Node.text s :: rest => s :: nodesTexts rest
  | Node.elem _ cs :: rest => nodesTexts cs ++ nodesTexts rest

/-- Model of `tag.get_text()`: all descendant text concatenated. -/
def getText (n : Node) : String :=
  joinStrings (nodesTexts [n])

/-- Model of `tag.get_text(strip=True)`: each descendant string is stripped
individually and the results are concatenated (bs4 skips strings that strip
to `""`, which does not change the concatenation with separator `""`). -/
def getTextStrip (n : Node) : String :=
  joinStrings ((nodesTexts [n]).map pyStrip)

/-- Model of the removal loop
`for script in soup(["script", "style"]): script.decompose()`:
every `<script>`/`<style>` element is removed together with its subtree. -/
def stripNodes : List Node → List Node
  | [] => []
  | Node.elem tag cs :: rest =>
      if tag = "script" ∨ tag = "style" then stripNodes rest
      else Node.elem tag (stripNodes cs) :: stripNodes rest
  | Node.text s :: rest => Node.text s :: stripNodes rest

/-- Replaces the contents of every `<script>`/`<style>` element by nothing,
leaving the rest of the tree unchanged.  Used to state that script/style
subtree content never influences the output. -/
def blankScriptStyle : List Node → List Node
  | [] => []
  | Node.elem tag cs :: rest =>
      if tag = "script" ∨ tag = "style" then
        Node.elem tag [] :: blankScriptStyle rest
      else Node.elem tag (blankScriptStyle cs) :: blankScriptStyle rest
  | Node.text s :: rest => Node.text s :: blankScriptStyle rest

/-- `true` iff the forest contains no `<script>` or `<style>` element. -/
def noScriptStyle : List Node → Bool
  | [] => true
  | Node.elem tag cs :: rest =>
      !(tag = "script" ∨ tag = "style") && noScriptStyle cs && noScriptStyle rest
  | Node.text _ :: rest => noScriptStyle rest

/-- Model of `soup.find(tag)` (hence of `soup.title`): the first element with
the given name, in document (preorder) order. -/
def findTag (tag : String) : List Node → Option Node
  | [] => none
  | Node.elem t cs :: rest =>
      if t = tag then some (Node.elem t cs)
      else
        match findTag tag cs with
        | some r => some r
        | none => findTag tag rest
  | Node.text _ :: rest => findTag tag rest

/-- Model of bs4's `Tag.string` property: if the node has exactly one child,
return that child's string (a text child returns its own content, an element
child is recursed into); otherwise `None`. -/
def stringProp : Node → Option String
  | Node.text s => some s
  | Node.elem _ cs =>
      match cs with
      | [c] => stringProp c
      | _ => none

/-- The six heading tag names, in the order they appear in the source. -/
def headingTags : List String := ["h1", "h2", "h3", "h4", "h5", "h6"]

def isHeadingTag (t : String) : Bool :=
  headingTags.contains t

/-- Model of `soup.find_all(['h1',...,'h6'])`: all heading elements in
document (preorder) order, descendants of matches included. -/
def findAllHeadings : List Node → List Node
  | [] => []
  | Node.elem t cs :: rest =>
      (if isHeadingTag t then [Node.elem t cs] else [])
        ++ findAllHeadings cs ++ findAllHeadings rest
  | Node.text _ :: rest => findAllHeadings rest

def tagName : Node → String
  | Node.elem t _ => t
  | Node.text _ => ""

/-- `int(c)` for a digit character. -/
def digitVal (c : Char) : Nat :=
  c.toNat - 48

/-- Model of `int(heading_level[1])`; every call site passes one of
`"h1"`..`"h6"`. -/
def levelOfTag (t : String) : Nat :=
  digitVal (t.data.getD 1 ' ')

/-- The heading tag whose digit is `l`, for `l` in `1..6`. -/
def tagOfLevel : Nat → String
  | 1 => "h1"
  | 2 => "h2"
  | 3 => "h3"
  | 4 => "h4"
  | 5 => "h5"
  | 6 => "h6"
  | _ => ""

/-! ## The extracted content (`content` dict of `api_scrape`) -/

/-- One entry of `content['structure']`. -/
structure HeadingEntry where
  level : Nat
  text : String
deriving DecidableEq, Repr

/-- The `content` dict: `title`, `headings` (an insertion-ordered dict from
tag name to list of heading texts) and `structure`.  `title` is `none` when
the Python value is `None` (rendered as JSON `null`). -/
structure Content where
  title : Option String
  headings : List (String × List String)
  structure' : List HeadingEntry
deriving DecidableEq, Repr

/-- The initial `content['headings']` dict with its six keys. -/
def emptyHeadings : List (String × List String) :=
  [("h1", []), ("h2", []), ("h3", []), ("h4", []), ("h5", []), ("h6", [])]

/-- `d[k].append(v)` on the insertion-ordered dict `d` (no-op if `k` is
absent; every call site passes a key of `emptyHeadings`). -/
def appendAt (k v : String) : List (String × List String) → List (String × List String)
  | [] => []
  | (k', vs) :: rest =>
      if k' = k then (k', vs ++ [v]) :: rest
      else (k', vs) :: appendAt k v rest

/-- One iteration of the loop
`for tag in soup.find_all(['h1',...,'h6']): ...` (lines 132-143). -/
def scrapeStep (acc : List (String × List String) × List HeadingEntry) (n : Node) :
    List (String × List String) × List HeadingEntry :=
  match n with
  | Node.text _ => acc
  | Node.elem tag cs =>
      let htext := getTextStrip (Node.elem tag cs)
      if htext = "" then acc
      else (appendAt tag htext acc.1,
            acc.2 ++ [{ level := levelOfTag tag, text := htext }])

/-- The `structure` entry a visited node produces, if any. -/
def entryOf : Node → Option HeadingEntry
  | Node.text _ => none
  | Node.elem tag cs =>
      let htext := getTextStrip (Node.elem tag cs)
      if htext = "" then none
      else some { level := levelOfTag tag, text := htext }

/-- The `structure` entry of a heading node, ignoring the emptiness check. -/
def entryOfNode (n : Node) : HeadingEntry :=
  { level := levelOfTag (tagName n), text := getTextStrip n }

/-- The text a visited node appends to the bucket `headings[k]`, if any. -/
def bucketEntryOf (k : String) : Node → Option String
  | Node.text _ => none
  | Node.elem tag cs =>
      let htext := getTextStrip (Node.elem tag cs)
      if tag = k ∧ htext ≠ "" then some htext else none

/-- The pure extraction pipeline of `api_scrape` (lines 114-143), from the
parsed document to the `content` dict: remove script/style subtrees, read
the title, then walk all heading elements in document order. -/
def scrapeContent (doc : List Node) : Content :=
  let soup := stripNodes doc
  let title : Option String :=
    match findTag "title" soup with
    | some t => stringProp t
    | none => some "No title found"
  let acc := (findAllHeadings soup).foldl scrapeStep (emptyHeadings, [])
  { title := title, headings := acc.1, structure' := acc.2 }

/-- The heading elements the loop visits, in document order. -/
def docHeadings (doc : List Node) : List Node :=
  findAllHeadings (stripNodes doc)

/-! ## JSON values and the HTTP surface -/

/-- A JSON value (also used for the parsed request body and for `jsonify`
response bodies). -/
inductive Json where
  | null
  | bool (b : Bool)
  | str (s : String)
  | num (n : Int)
  | arr (elts : List Json)
  | obj (fields : List (String × Json))

/-- Python truthiness of a JSON value (`if not url:` / `if not query:`). -/
def jsonTruthy : Json → Bool
  | Json.null => false
  | Json.bool b => b
  | Json.str s => s ≠ ""
  | Json.num n => n ≠ 0
  | Json.arr l => !l.isEmpty
  | Json.obj l => !l.isEmpty

/-- Field lookup on a JSON object; `none` on non-objects or missing keys. -/
def jsonLookup (j : Json) (k : String) : Option Json :=
  match j with
  | Json.obj kvs => kvs.lookup k
  | _ => none

/-- Display form of a JSON value as Python `str()` renders the decoded
object (used only in the f-string of the search error message; composites
are rendered in a simplified Python-literal style). -/
def jsonRender : Json → String
  | Json.null => "None"
  | Json.bool true => "True"
  | Json.bool false => "False"
  | Json.str s => s
  | Json.num n => toString n
  | Json.arr _ => "[...]"
  | Json.obj _ => "\x7b...\x7d"

/-- `jsonify` encoding of the `content` dict. -/
def contentToJson (c : Content) : Json :=
  Json.obj
    [("title", match c.title with | some s => Json.str s | none => Json.null),
     ("headings", Json.obj (c.headings.map (fun kv => (kv.1, Json.arr (kv.2.map Json.str))))),
     ("structure", Json.arr (c.structure'.map (fun e =>
        Json.obj [("level", Json.num (Int.ofNat e.level)), ("text", Json.str e.text)])))]

inductive Method where
  | get
  | post
deriving DecidableEq

/-- An incoming HTTP request: the method, the query parameters
(`request.args`) and the parsed JSON body (`none` when `request.get_json()`
fails because the body is missing or not valid JSON). -/
structure Request where
  method : Method
  args : List (String × String)
  jsonBody : Option Json

/-- An outbound `requests.get(...)` invocation, with the keyword arguments
passed at the call site. -/
structure HttpCall where
  url : String
  params : List (String × Json)
  userAgent : Option String
  timeout : Option Nat

/-- Outcome of the scrape endpoint's outbound fetch: either an HTTP response
(status code plus the node tree that `BeautifulSoup` produces from
`response.text`), or a raised `requests` exception (DNS failure, refused
connection, timeout, ...). -/
inductive FetchOutcome where
  | resp (status : Nat) (doc : List Node)
  | exn (msg : String)

/-- Outcome of the search endpoint's outbound fetch: an HTTP response whose
body either decodes as JSON or makes `response.json()` raise, or a raised
`requests` exception. -/
inductive SearchOutcome where
  | resp (status : Nat) (body : Except String Json)
  | exn (msg : String)

/-- An HTTP response produced by an endpoint. -/
structure HttpResponse where
  status : Nat
  body : Json

/-- The message of the `HTTPError` raised by `response.raise_for_status()`
(the upstream reason phrase is not modelled). -/
def httpErrorMsg (status : Nat) (url : String) : String :=
  if 400 ≤ status ∧ status < 500 then
    Nat.repr status ++ " Client Error for url: " ++ url
  else
    Nat.repr status ++ " Server Error for url: " ++ url

/-- Model of `response.raise_for_status()`: raises exactly for status codes
in `400..599`. -/
def raiseForStatus (status : Nat) (url : String) : Except String Unit :=
  if 400 ≤ status ∧ status < 600 then Except.error (httpErrorMsg status url)
  else Except.ok ()

/-- `jsonify({'error': msg})`. -/
def errorBody (msg : String) : Json :=
  Json.obj [("error", Json.str msg)]

/-- The 400 body for a missing `url`. -/
def urlRequiredBody : Json :=
  errorBody "URL is required"

/-- The success body of `/api/scrape` (lines 145-149). -/
def successBody (url : String) (c : Content) : Json :=
  Json.obj
    [("status", Json.str "success"),
     ("url", Json.str url),
     ("content", contentToJson c)]

/-- The `User-Agent` header value of line 109. -/
def scrapeUserAgent : String :=
  "Mozilla/5.0 (Windows NT 10.0; Win64; x64) AppleWebKit/537.36 (KHTML, like Gecko) Chrome/91.0.4472.124 Safari/537.36"

/-- Lines 98-102: obtain `url` from the JSON body (POST) or the query string
(GET).  `Except.error` is an exception raised before the `try` block and
therefore not converted to the endpoint's JSON envelope: a missing/invalid
JSON body makes `request.get_json()` raise, and `data.get('url', '')` on a
non-object body raises `AttributeError`. -/
def extractScrapeUrl (req : Request) : Except String Json :=
  match req.method with
  | Method.get => Except.ok (Json.str ((req.args.lookup "url").getD ""))
  | Method.post =>
      match req.jsonBody with
      | none => Except.error "werkzeug.exceptions.BadRequest: invalid JSON body"
      | some (Json.obj kvs) => Except.ok ((kvs.lookup "url").getD (Json.str ""))
      | some _ => Except.error "AttributeError: object has no attribute get"

/-- The `/api/scrape` endpoint (lines 89-152), parametrised by the behaviour
`httpGet` of `requests.get`.  Returns the HTTP response (or an exception
that escaped the handler) together with the list of outbound HTTP calls
issued while handling the request. -/
def api_scrape (httpGet : HttpCall → FetchOutcome) (req : Request) :
    Except String HttpResponse × List HttpCall :=
  match extractScrapeUrl req with
  | Except.error e => (Except.error e, [])
  | Except.ok url =>
    if jsonTruthy url = false then
      (Except.ok ⟨400, urlRequiredBody⟩, [])
    else
      match url with
      | Json.str u =>
          match httpGet ⟨u, [], some scrapeUserAgent, some 10⟩ with
          | FetchOutcome.exn m =>
              (Except.ok ⟨500, errorBody m⟩,
               [⟨u, [], some scrapeUserAgent, some 10⟩])
          | FetchOutcome.resp status doc =>
              match raiseForStatus status u with
              | Except.error m =>
                  (Except.ok ⟨500, errorBody m⟩,
                   [⟨u, [], some scrapeUserAgent, some 10⟩])
              | Except.ok _ =>
                  (Except.ok ⟨200, successBody u (scrapeContent doc)⟩,
                   [⟨u, [], some scrapeUserAgent, some 10⟩])
      | _ =>
          -- a truthy non-string url makes `requests.get` raise inside the
          -- `try`, so the generic handler returns the 500 envelope
          (Except.ok ⟨500, errorBody "requests.exceptions.InvalidURL"⟩, [])

/-! ### The search endpoint (`api_search`, lines 21-87) -/

/-- The process configuration for `/api/search`. -/
structure SearchConfig where
  apiKey : Option String
  engineId : Option String

def googleSearchApiUrl : String :=
  "https://www.googleapis.com/customsearch/v1"

def configMissingBody : Json :=
  errorBody "Search service configuration is missing. Please check GOOGLE_API_KEY and SEARCH_ENGINE_ID environment variables."

def queryRequiredBody : Json :=
  errorBody "Query parameter is required"

/-- Truthiness of an environment variable (`not GOOGLE_API_KEY`). -/
def envTruthy : Option String → Bool
  | none => false
  | some s => s ≠ ""

/-- Lines 35-39: obtain the query from the JSON body (POST, key `query`) or
the query string (GET, key `q`); exceptions as in `extractScrapeUrl`. -/
def extractQuery (req : Request) : Except String Json :=
  match req.method with
  | Method.get => Except.ok (Json.str ((req.args.lookup "q").getD ""))
  | Method.post =>
      match req.jsonBody with
      | none => Except.error "werkzeug.exceptions.BadRequest: invalid JSON body"
      | some (Json.obj kvs) => Except.ok ((kvs.lookup "query").getD (Json.str ""))
      | some _ => Except.error "AttributeError: object has no attribute get"

/-- Lines 66-71: one normalized result from one `items` entry.  A non-object
entry makes `item.get` raise `AttributeError` (caught by the generic
handler). -/
def searchResultOfItem (item : Json) : Except String Json :=
  match item with
  | Json.obj kvs =>
      Except.ok (Json.obj
        [("title", (kvs.lookup "title").getD (Json.str "")),
         ("link", (kvs.lookup "link").getD (Json.str "")),
         ("snippet", (kvs.lookup "snippet").getD (Json.str ""))])
  | _ => Except.error "AttributeError: object has no attribute get"

/-- Lines 56-77: process the decoded upstream JSON inside the `try` block.
`Except.error` is an exception caught by the generic `except` clause.
Membership tests (`'error' in search_results`) on a decoded body that is not
an object are approximated by a raised `TypeError`; the upstream API always
returns an object. -/
def processSearch (q : Json) (js : Json) : Except String HttpResponse :=
  match js with
  | Json.obj kvs =>
      match kvs.lookup "error" with
      | some errVal =>
          match errVal with
          | Json.obj ekvs =>
              let msg :=
                match ekvs.lookup "message" with
                | some (Json.str m) => m
                | some v => jsonRender v
                | none => "Unknown error occurred"
              Except.ok ⟨500, Json.obj
                [("error", Json.str ("Search API error: " ++ msg)),
                 ("details", errVal)]⟩
          | _ => Except.error "AttributeError: object has no attribute get"
      | none =>
          match kvs.lookup "items" with
          | none =>
              Except.ok ⟨200, Json.obj
                [("status", Json.str "success"), ("query", q),
                 ("results", Json.arr [])]⟩
          | some (Json.arr items) =>
              match items.mapM searchResultOfItem with
              | Except.error m => Except.error m
              | Except.ok rs =>
                  Except.ok ⟨200, Json.obj
                    [("status", Json.str "success"), ("query", q),
                     ("results", Json.arr rs)]⟩
          | some _ => Except.error "TypeError: object is not iterable"
  | _ => Except.error "TypeError: argument is not a container"

/-- The `/api/search` endpoint (lines 21-87), parametrised by the behaviour
`httpGet` of `requests.get`.  Note that the call of line 52 passes no
`timeout` keyword. -/
def api_search (httpGet : HttpCall → SearchOutcome) (cfg : SearchConfig)
    (req : Request) : Except String HttpResponse × List HttpCall :=
  if envTruthy cfg.apiKey = false ∨ envTruthy cfg.engineId = false then
    (Except.ok ⟨500, configMissingBody⟩, [])
  else
    match extractQuery req with
    | Except.error e => (Except.error e, [])
    | Except.ok q =>
      if jsonTruthy q = false then
        (Except.ok ⟨400, queryRequiredBody⟩, [])
      else
        match (match httpGet ⟨googleSearchApiUrl,
                 [("key", Json.str (cfg.apiKey.getD "")),
                  ("cx", Json.str (cfg.engineId.getD "")),
                  ("q", q), ("num", Json.num 10)],
                 none, none⟩ with
               | SearchOutcome.exn m =>
                   Except.ok (⟨500, Json.obj
                     [("error", Json.str "Failed to connect to Google Search API"),
                      ("details", Json.str m)]⟩ : HttpResponse)
               | SearchOutcome.resp status body =>
                   match raiseForStatus status googleSearchApiUrl with
                   | Except.error m =>
                       Except.ok (⟨500, Json.obj
                         [("error", Json.str "Failed to connect to Google Search API"),
                          ("details", Json.str m)]⟩ : HttpResponse)
                   | Except.ok _ =>
                       match body with
                       | Except.error m => Except.ok (⟨500, errorBody m⟩ : HttpResponse)
                       | Except.ok js => processSearch q js) with
        | Except.error m =>
            (Except.ok ⟨500, errorBody m⟩,
             [⟨googleSearchApiUrl,
               [("key", Json.str (cfg.apiKey.getD "")),
                ("cx", Json.str (cfg.engineId.getD "")),
                ("q", q), ("num", Json.num 10)],
               none, none⟩])
        | Except.ok r =>
            (Except.ok r,
             [⟨googleSearchApiUrl,
               [("key", Json.str (cfg.apiKey.getD "")),
                ("cx", Json.str (cfg.engineId.getD "")),
                ("q", q), ("num", Json.num 10)],
               none, none⟩])

/-! ## String lemmas -/

theorem data_append (s t : String) : (s ++ t).data = s.data ++ t.data := by
  cases s
  cases t
  rfl

theorem string_eq_empty_iff (s : String) : s = "" ↔ s.data = [] := by
  cases s with
  | mk l =>
    constructor
    · intro h
      exact congrArg String.data h
    · intro h
      exact congrArg String.mk h

theorem forall_mem_dropWhile_iff {α : Type} (p : α → Bool) (l : List α) :
    (∀ x ∈ l.dropWhile p, p x) ↔ (∀ x ∈ l, p x) := by
  constructor
  · intro h x hx
    rw [← List.takeWhile_append_dropWhile (p := p) (l := l)] at hx
    rcases List.mem_append.mp hx with h1 | h2
    · exact List.mem_takeWhile_imp h1
    · exact h x h2
  · intro h x hx
    exact h x (List.dropWhile_sublist p |>.mem hx)

theorem pyStripList_eq_nil_iff (l : List Char) :
    pyStripList l = [] ↔ ∀ c ∈ l, isPySpace c := by
  unfold pyStripList
  rw [List.reverse_eq_nil_iff, List.dropWhile_eq_nil_iff]
  constructor
  · intro h
    rw [← forall_mem_dropWhile_iff isPySpace l]
    intro x hx
    exact h x (List.mem_reverse.mpr hx)
  · intro h c hc
    exact h c ((List.dropWhile_sublist isPySpace).mem (List.mem_reverse.mp hc))

theorem pyStrip_eq_empty_iff (s : String) :
    pyStrip s = "" ↔ ∀ c ∈ s.data, isPySpace c := by
  rw [pyStrip, string_eq_empty_iff]
  exact pyStripList_eq_nil_iff s.data

theorem joinStrings_data (ss : List String) :
    (joinStrings ss).data = (ss.map String.data).flatten := by
  induction ss with
  | nil => rfl
  | cons s rest ih => simp [joinStrings, data_append, ih]

theorem joinStrings_eq_empty_iff (ss : List String) :
    joinStrings ss = "" ↔ ∀ s ∈ ss, s = "" := by
  rw [string_eq_empty_iff, joinStrings_data, List.flatten_eq_nil_iff]
  constructor
  · intro h s hs
    rw [string_eq_empty_iff]
    exact h s.data (List.mem_map_of_mem String.data hs)
  · intro h l hl
    rcases List.mem_map.mp hl with ⟨s, hs, rfl⟩
    exact (string_eq_empty_iff s).mp (h s hs)

/-- Stripping each string individually yields an empty concatenation exactly
when the whole concatenation strips to empty. -/
theorem join_strip_empty_iff (ss : List String) :
    joinStrings (ss.map pyStrip) = "" ↔ pyStrip (joinStrings ss) = "" := by
  rw [joinStrings_eq_empty_iff, pyStrip_eq_empty_iff, joinStrings_data]
  constructor
  · intro h c hc
    rcases List.mem_flatten.mp hc with ⟨l, hl, hcl⟩
    rcases List.mem_map.mp hl with ⟨s, hs, rfl⟩
    exact (pyStrip_eq_empty_iff s).mp (h (pyStrip s) (List.mem_map_of_mem pyStrip hs)) c hcl
  · intro h s hs
    rcases List.mem_map.mp hs with ⟨t, ht, rfl⟩
    rw [pyStrip_eq_empty_iff]
    intro c hc
    exact h c (List.mem_flatten.mpr ⟨t.data, List.mem_map_of_mem String.data ht, hc⟩)

/-- For any node, `get_text(strip=True)` is empty exactly when the whole
text content trims to the empty string. -/
theorem getTextStrip_eq_empty_iff (n : Node) :
    getTextStrip n = "" ↔ pyStrip (getText n) = "" := by
  rw [getTextStrip, getText]
  exact join_strip_empty_iff (nodesTexts [n])

/-! ## Lemmas about the headings dict -/

theorem appendAt_keys (k v : String) (d : List (String × List String)) :
    (appendAt k v d).map Prod.fst = d.map Prod.fst := by
  induction d with
  | nil => rfl
  | cons kv rest ih =>
    cases kv with
    | mk k' vs =>
      by_cases h : k' = k
      · simp [appendAt, h]
      · simp [appendAt, h, ih]

theorem lookup_appendAt_self (k v : String) (d : List (String × List String)) :
    (appendAt k v d).lookup k = (d.lookup k).map (fun vs => vs ++ [v]) := by
  induction d with
  | nil => rfl
  | cons kv rest ih =>
    cases kv with
    | mk k' vs =>
      by_cases h : k' = k
      · subst h
        simp [appendAt, List.lookup]
      · have hb : (k == k') = false := beq_eq_false_iff_ne.mpr (Ne.symm h)
        simp [appendAt, h, List.lookup, hb, ih]

theorem lookup_appendAt_ne (k k' v : String) (hne : k' ≠ k)
    (d : List (String × List String)) :
    (appendAt k v d).lookup k' = d.lookup k' := by
  induction d with
  | nil => rfl
  | cons kv rest ih =>
    cases kv with
    | mk k0 vs =>
      by_cases h : k0 = k
      · subst h
        have hb : (k' == k0) = false := beq_eq_false_iff_ne.mpr hne
        simp [appendAt, List.lookup, hb]
      · by_cases h' : k' = k0
        · subst h'
          simp [appendAt, h, List.lookup]
        · have hb : (k' == k0) = false := beq_eq_false_iff_ne.mpr h'
          simp [appendAt, h, List.lookup, hb, ih]

/-! ## Characterisation of the extraction loop -/

theorem foldl_scrapeStep_snd (hs : List Node) :
    ∀ d s, (hs.foldl scrapeStep (d, s)).2 = s ++ hs.filterMap entryOf := by
  induction hs with
  | nil => intro d s; simp
  | cons n rest ih =>
    intro d s
    cases n with
    | text str => simpa [scrapeStep, entryOf] using ih d s
    | elem tag cs =>
      by_cases h : getTextStrip (Node.elem tag cs) = ""
      · simpa [scrapeStep, entryOf, h] using ih d s
      · simp [scrapeStep, entryOf, h, ih]

theorem foldl_scrapeStep_keys (hs : List Node) :
    ∀ d s, ((hs.foldl scrapeStep (d, s)).1).map Prod.fst = d.map Prod.fst := by
  induction hs with
  | nil => intro d s; simp
  | cons n rest ih =>
    intro d s
    cases n with
    | text str => simpa [scrapeStep] using ih d s
    | elem tag cs =>
      by_cases h : getTextStrip (Node.elem tag cs) = ""
      · simpa [scrapeStep, h] using ih d s
      · simp [scrapeStep, h, ih, appendAt_keys]

theorem scrapeStep_elem (d : List (String × List String)) (s : List HeadingEntry)
    (tag : String) (cs : List Node) (h : getTextStrip (Node.elem tag cs) ≠ "") :
    scrapeStep (d, s) (Node.elem tag cs)
      = (appendAt tag (getTextStrip (Node.elem tag cs)) d,
         s ++ [{ level := levelOfTag tag, text := getTextStrip (Node.elem tag cs) }]) := by
  simp [scrapeStep, h]

theorem foldl_scrapeStep_lookup (k : String) (hs : List Node) :
    ∀ d s, ((hs.foldl scrapeStep (d, s)).1).lookup k
      = (d.lookup k).map (fun vs => vs ++ hs.filterMap (bucketEntryOf k)) := by
  induction hs with
  | nil =>
    intro d s
    cases h : d.lookup k <;> simp [h]
  | cons n rest ih =>
    intro d s
    cases n with
    | text str => simpa [scrapeStep, bucketEntryOf] using ih d s
    | elem tag cs =>
      by_cases h : getTextStrip (Node.elem tag cs) = ""
      · simpa [scrapeStep, bucketEntryOf, h] using ih d s
      · by_cases hk : tag = k
        · subst hk
          rw [List.foldl_cons, scrapeStep_elem _ _ _ _ h, ih, lookup_appendAt_self]
          simp only [List.filterMap_cons, bucketEntryOf, h, ne_eq,
            not_false_iff, and_self, if_pos, and_true]
          cases hl : d.lookup tag <;> simp
        · rw [List.foldl_cons, scrapeStep_elem _ _ _ _ h, ih,
            lookup_appendAt_ne tag k _ (Ne.symm hk)]
          simp [bucketEntryOf, hk]

theorem findAllHeadings_shape (l : List Node) :
    ∀ n ∈ findAllHeadings l, ∃ t cs, n = Node.elem t cs ∧ isHeadingTag t = true := by
  induction l using findAllHeadings.induct with
  | case1 => simp [findAllHeadings]
  | case2 tag cs rest ih1 ih2 =>
    intro n hn
    simp only [findAllHeadings] at hn
    rcases List.mem_append.mp hn with h12 | h3
    · rcases List.mem_append.mp h12 with h1 | h2
      · by_cases ht : isHeadingTag tag
        · rw [if_pos ht] at h1
          rw [List.mem_singleton.mp h1]
          exact ⟨tag, cs, rfl, ht⟩
        · rw [if_neg ht] at h1
          cases h1
      · exact ih1 n h2
    · exact ih2 n h3
  | case3 s rest ih =>
    intro n hn
    simp only [findAllHeadings] at hn
    exact ih n hn

theorem scrapeContent_structure (doc : List Node) :
    (scrapeContent doc).structure' = (docHeadings doc).filterMap entryOf := by
  simpa [scrapeContent, docHeadings]
    using foldl_scrapeStep_snd (findAllHeadings (stripNodes doc)) emptyHeadings []

theorem scrapeContent_keys (doc : List Node) :
    (scrapeContent doc).headings.map Prod.fst = headingTags := by
  simpa [scrapeContent]
    using foldl_scrapeStep_keys (findAllHeadings (stripNodes doc)) emptyHeadings []

theorem scrapeContent_bucket (doc : List Node) (k : String) (hk : k ∈ headingTags) :
    (scrapeContent doc).headings.lookup k
      = some ((docHeadings doc).filterMap (bucketEntryOf k)) := by
  have hinit : emptyHeadings.lookup k = some [] := by
    fin_cases hk <;> rfl
  have := foldl_scrapeStep_lookup k (findAllHeadings (stripNodes doc)) emptyHeadings []
  rw [hinit] at this
  simpa [scrapeContent, docHeadings] using this

/-! ## Level/tag correspondence -/

theorem isHeadingTag_iff (t : String) : isHeadingTag t = true ↔ t ∈ headingTags := by
  simp [isHeadingTag]

def levelList : List Nat := [1, 2, 3, 4, 5, 6]

theorem levelOfTag_eq_iff (t : String) (ht : t ∈ headingTags) (l : Nat)
    (hl : l ∈ levelList) : levelOfTag t = l ↔ t = tagOfLevel l := by
  fin_cases ht <;> fin_cases hl <;> decide

theorem levelOfTag_mem (t : String) (ht : t ∈ headingTags) :
    levelOfTag t ∈ levelList := by
  fin_cases ht <;> decide

theorem filter_level_filterMap (l : Nat) (hl : l ∈ levelList) (hs : List Node)
    (hshape : ∀ n ∈ hs, ∃ t cs, n = Node.elem t cs ∧ isHeadingTag t = true) :
    ((hs.filterMap entryOf).filter (fun e => e.level = l)).map HeadingEntry.text
      = hs.filterMap (bucketEntryOf (tagOfLevel l)) := by
  induction hs with
  | nil => rfl
  | cons n rest ih =>
    have hrest := ih (fun m hm => hshape m (List.mem_cons_of_mem n hm))
    rcases hshape n (List.mem_cons_self n rest) with ⟨t, cs, rfl, ht⟩
    have htag : t ∈ headingTags := (isHeadingTag_iff t).mp ht
    by_cases hempty : getTextStrip (Node.elem t cs) = ""
    · simp [entryOf, bucketEntryOf, hempty, hrest]
    · by_cases hmatch : t = tagOfLevel l
      · have hlvl : levelOfTag t = l := (levelOfTag_eq_iff t htag l hl).mpr hmatch
        subst hmatch
        simp [entryOf, bucketEntryOf, hempty, hlvl, hrest]
      · have hlvl : ¬ levelOfTag t = l :=
          fun he => hmatch ((levelOfTag_eq_iff t htag l hl).mp he)
        simp [entryOf, bucketEntryOf, hempty, hmatch, hlvl, hrest]

theorem filterMap_entryOf_length (hs : List Node)
    (hshape : ∀ n ∈ hs, ∃ t cs, n = Node.elem t cs ∧ isHeadingTag t = true) :
    (hs.filterMap entryOf).length
      = (hs.filter (fun n => getTextStrip n ≠ "")).length := by
  induction hs with
  | nil => rfl
  | cons n rest ih =>
    have hrest := ih (fun m hm => hshape m (List.mem_cons_of_mem n hm))
    rcases hshape n (List.mem_cons_self n rest) with ⟨t, cs, rfl, ht⟩
    by_cases hempty : getTextStrip (Node.elem t cs) = ""
    · simp [entryOf, hempty, hrest]
    · simp [entryOf, hempty, hrest]

theorem tagOfLevel_mem (l : Nat) (hl : l ∈ levelList) :
    tagOfLevel l ∈ headingTags := by
  fin_cases hl <;> decide

theorem appendAt_sum (k v : String) (d : List (String × List String))
    (hk : k ∈ d.map Prod.fst) :
    ((appendAt k v d).map (fun kv => kv.2.length)).sum
      = ((d.map (fun kv => kv.2.length)).sum) + 1 := by
  induction d with
  | nil => cases hk
  | cons kv rest ih =>
    cases kv with
    | mk k0 vs =>
      by_cases h : k0 = k
      · subst h
        simp [appendAt]
        omega
      · rcases List.mem_cons.mp hk with he | hm
        · exact absurd he.symm h
        · simp [appendAt, h, ih hm]
          omega

theorem foldl_scrapeStep_sum (hs : List Node)
    (hshape : ∀ n ∈ hs, ∃ t cs, n = Node.elem t cs ∧ isHeadingTag t = true) :
    ∀ d s, d.map Prod.fst = headingTags →
      (((hs.foldl scrapeStep (d, s)).1).map (fun kv => kv.2.length)).sum
        = ((d.map (fun kv => kv.2.length)).sum)
            + (hs.filter (fun n => getTextStrip n ≠ "")).length := by
  induction hs with
  | nil =>
    intro d s _
    simp
  | cons n rest ih =>
    have hrest := ih (fun m hm => hshape m (List.mem_cons_of_mem n hm))
    rcases hshape n (List.mem_cons_self n rest) with ⟨t, cs, rfl, ht⟩
    intro d s hkeys
    by_cases hempty : getTextStrip (Node.elem t cs) = ""
    · rw [List.foldl_cons]
      have : scrapeStep (d, s) (Node.elem t cs) = (d, s) := by
        simp [scrapeStep, hempty]
      rw [this, hrest d s hkeys]
      simp [List.filter_cons, hempty]
    · rw [List.foldl_cons, scrapeStep_elem _ _ _ _ hempty]
      have htk : t ∈ d.map Prod.fst := by
        rw [hkeys]
        exact (isHeadingTag_iff t).mp ht
      rw [hrest _ _ (by rw [appendAt_keys, hkeys]),
        appendAt_sum _ _ _ htk]
      simp [List.filter_cons, hempty]
      omega

theorem filter_nonempty_congr (hs : List Node) :
    hs.filter (fun n => getTextStrip n ≠ "")
      = hs.filter (fun n => pyStrip (getText n) ≠ "") := by
  apply List.filter_congr
  intro x hx
  simp only [ne_eq, decide_eq_decide]
  exact not_congr (getTextStrip_eq_empty_iff x)

theorem filter_tag_nonempty_congr (k : String) (hs : List Node) :
    hs.filter (fun n => tagName n = k ∧ getTextStrip n ≠ "")
      = hs.filter (fun n => tagName n = k ∧ pyStrip (getText n) ≠ "") := by
  apply List.filter_congr
  intro x hx
  simp only [ne_eq, decide_eq_decide]
  exact and_congr_right (fun _ => not_congr (getTextStrip_eq_empty_iff x))

theorem filter_and_sublist {α : Type} (p q : α → Bool) (l : List α) :
    List.Sublist (l.filter (fun a => p a && q a)) (l.filter p) := by
  induction l with
  | nil => simp
  | cons a rest ih =>
    by_cases hp : p a
    · by_cases hq : q a
      · simpa [List.filter_cons, hp, hq] using ih.cons₂ a
      · simpa [List.filter_cons, hp, hq] using ih.cons a
    · simpa [List.filter_cons, hp] using ih

theorem entryOf_eq_entryOfNode (n : Node) (e : HeadingEntry)
    (h : entryOf n = some e) : e = entryOfNode n := by
  cases n with
  | text s => simp [entryOf] at h
  | elem tag cs =>
    by_cases hempty : getTextStrip (Node.elem tag cs) = ""
    · simp [entryOf, hempty] at h
    · simp only [entryOf, hempty, if_neg, ite_false] at h
      rw [← Option.some_inj.mp h]
      simp [entryOfNode, tagName, hempty]

/-! ## Script/style removal lemmas -/

/-- Removal is insensitive to the contents of script/style elements. -/
theorem stripNodes_blankScriptStyle (l : List Node) :
    stripNodes (blankScriptStyle l) = stripNodes l := by
  induction l using blankScriptStyle.induct with
  | case1 => simp [blankScriptStyle]
  | case2 tag cs rest hss ih =>
    simp [blankScriptStyle, hss, stripNodes, ih]
  | case3 tag cs rest hss ih1 ih2 =>
    simp [blankScriptStyle, hss, stripNodes, ih1, ih2]
  | case4 s rest ih =>
    simp [blankScriptStyle, stripNodes, ih]

/-- Removal is complete: no script/style element survives `stripNodes`. -/
theorem noScriptStyle_stripNodes (l : List Node) :
    noScriptStyle (stripNodes l) = true := by
  induction l using stripNodes.induct with
  | case1 => simp [stripNodes, noScriptStyle]
  | case2 tag cs rest hss ih =>
    simp [stripNodes, hss, ih]
  | case3 tag cs rest hss ih1 ih2 =>
    simp [stripNodes, hss, noScriptStyle, ih1, ih2]
  | case4 s rest ih =>
    simp [stripNodes, noScriptStyle, ih]

/-! ## Filter/map characterisations of the extraction -/

theorem docHeadings_shape (doc : List Node) :
    ∀ n ∈ docHeadings doc, ∃ t cs, n = Node.elem t cs ∧ isHeadingTag t = true :=
  findAllHeadings_shape (stripNodes doc)

theorem filterMap_entryOf_eq (hs : List Node)
    (hshape : ∀ n ∈ hs, ∃ t cs, n = Node.elem t cs ∧ isHeadingTag t = true) :
    hs.filterMap entryOf
      = (hs.filter (fun n => getTextStrip n ≠ "")).map entryOfNode := by
  induction hs with
  | nil => rfl
  | cons n rest ih =>
    have hrest := ih (fun m hm => hshape m (List.mem_cons_of_mem n hm))
    rcases hshape n (List.mem_cons_self n rest) with ⟨t, cs, rfl, ht⟩
    by_cases hempty : getTextStrip (Node.elem t cs) = ""
    · simp [entryOf, hempty, hrest]
    · simp [entryOf, entryOfNode, tagName, hempty, hrest]

theorem filterMap_bucketEntryOf_eq (k : String) (hs : List Node)
    (hshape : ∀ n ∈ hs, ∃ t cs, n = Node.elem t cs ∧ isHeadingTag t = true) :
    hs.filterMap (bucketEntryOf k)
      = (hs.filter (fun n => tagName n = k ∧ getTextStrip n ≠ "")).map getTextStrip := by
  induction hs with
  | nil => rfl
  | cons n rest ih =>
    have hrest := ih (fun m hm => hshape m (List.mem_cons_of_mem n hm))
    rcases hshape n (List.mem_cons_self n rest) with ⟨t, cs, rfl, ht⟩
    by_cases hempty : getTextStrip (Node.elem t cs) = ""
    · simp [bucketEntryOf, tagName, hempty, hrest]
    · by_cases hk : t = k
      · subst hk
        simp [List.filterMap_cons, List.filter_cons, bucketEntryOf, tagName,
          hempty, hrest]
      · simp [List.filterMap_cons, List.filter_cons, bucketEntryOf, tagName,
          hempty, hk, hrest]

theorem filterMap_sublist_map {α β : Type} (f : α → Option β) (g : α → β)
    (hfg : ∀ a b, f a = some b → b = g a) (l : List α) :
    List.Sublist (l.filterMap f) (l.map g) := by
  induction l with
  | nil => simp
  | cons a rest ih =>
    cases hfa : f a with
    | none =>
      simp only [List.filterMap_cons, hfa, List.map_cons]
      exact ih.cons (g a)
    | some b =>
      simp only [List.filterMap_cons, hfa, List.map_cons]
      rw [hfg a b hfa]
      exact ih.cons₂ (g a)

/-- The title assembled by `scrapeContent`, unfolded. -/
theorem scrapeContent_title (doc : List Node) :
    (scrapeContent doc).title
      = (match findTag "title" (stripNodes doc) with
         | some t => stringProp t
         | none => some "No title found") := rfl

/-- `(scrapeContent doc).headings`, unfolded to the loop it comes from. -/
theorem scrapeContent_headings_def (doc : List Node) :
    (scrapeContent doc).headings
      = (((docHeadings doc).foldl scrapeStep (emptyHeadings, []))).1 := rfl

/-! ## Example documents for witnesses and counterexamples -/

/-- A document with a single non-empty `h1`. -/
def oneHeadingDoc : List Node :=
  [Node.elem "h1" [Node.text "A"]]

/-- A document with no `<title>` element. -/
def noTitleDoc : List Node :=
  [Node.elem "p" [Node.text "x"]]

/-- A document whose `<title>` holds a single text child. -/
def titleTextDoc : List Node :=
  [Node.elem "title" [Node.text "Doc"]]

/-- A document whose `<title>` has a text child and an element child. -/
def titleMixedDoc : List Node :=
  [Node.elem "title" [Node.text "A", Node.elem "b" [Node.text "B"]]]

/-- A document whose `<title>` wraps its text in a `<b>` element. -/
def titleWrappedDoc : List Node :=
  [Node.elem "title" [Node.elem "b" [Node.text "Hi"]]]

/-- A heading whose text is split across an inline child element. -/
def mixedHeading : Node :=
  Node.elem "h1" [Node.text "Hello ", Node.elem "b" [Node.text "World"]]

/-! ## Claims -/

/-- C1: for every document, the headings mapping has exactly the six keys
`h1`..`h6` (in that order, present even when empty); every `structure` entry
has a level in `1..6`, and for each level `l` the `structure` entries of
level `l` have exactly the texts of `headings[tagOfLevel l]`, in the same
order (the two views correspond in both directions); `structure` has exactly
`N` entries and the six bucket lengths sum to `N`, where `N` is the number
of heading elements with non-blank text content. -/
theorem scrape_headings_structure_consistent (doc : List Node) :
    (scrapeContent doc).headings.map Prod.fst = headingTags
    ∧ (∀ e ∈ (scrapeContent doc).structure', e.level ∈ levelList)
    ∧ (∀ l ∈ levelList,
        (scrapeContent doc).headings.lookup (tagOfLevel l)
          = some (((scrapeContent doc).structure'.filter
              (fun e => e.level = l)).map HeadingEntry.text))
    ∧ (scrapeContent doc).structure'.length
        = ((docHeadings doc).filter (fun n => pyStrip (getText n) ≠ "")).length
    ∧ ((scrapeContent doc).headings.map (fun kv => kv.2.length)).sum
        = ((docHeadings doc).filter (fun n => pyStrip (getText n) ≠ "")).length := by
  refine ⟨scrapeContent_keys doc, ?_, ?_, ?_, ?_⟩
  · intro e he
    rw [scrapeContent_structure] at he
    rcases List.mem_filterMap.mp he with ⟨n, hn, hne⟩
    rcases docHeadings_shape doc n hn with ⟨t, cs, rfl, ht⟩
    have he' := entryOf_eq_entryOfNode _ _ hne
    subst he'
    simpa [entryOfNode, tagName] using levelOfTag_mem t ((isHeadingTag_iff t).mp ht)
  · intro l hl
    rw [scrapeContent_bucket doc _ (tagOfLevel_mem l hl), scrapeContent_structure,
      filter_level_filterMap l hl _ (docHeadings_shape doc)]
  · rw [scrapeContent_structure, filterMap_entryOf_length _ (docHeadings_shape doc),
      filter_nonempty_congr]
  · have h := foldl_scrapeStep_sum (docHeadings doc) (docHeadings_shape doc)
      emptyHeadings [] rfl
    rw [scrapeContent_headings_def, h, filter_nonempty_congr]
    simp [emptyHeadings]

/-- Witness for C1 at a concrete document. -/
theorem scrape_headings_structure_consistent_witness :
    (1 : Nat) ∈ levelList
    ∧ (scrapeContent oneHeadingDoc).headings.map Prod.fst = headingTags
    ∧ (scrapeContent oneHeadingDoc).headings.lookup (tagOfLevel 1)
        = some (((scrapeContent oneHeadingDoc).structure'.filter
            (fun e => e.level = 1)).map HeadingEntry.text) :=
  ⟨by decide, (scrape_headings_structure_consistent oneHeadingDoc).1,
   (scrape_headings_structure_consistent oneHeadingDoc).2.2.1 1 (by decide)⟩

/-- C2: `structure` entries appear in document order (the list is a sublist
of the document-order heading list mapped to entries), and each bucket
`headings[k]` is a sublist of the document-order texts of the headings with
tag `k`, so both views preserve relative document order. -/
theorem scrape_document_order (doc : List Node) :
    List.Sublist (scrapeContent doc).structure' ((docHeadings doc).map entryOfNode)
    ∧ (∀ k ∈ headingTags, ∃ vs,
        (scrapeContent doc).headings.lookup k = some vs
        ∧ List.Sublist vs
            (((docHeadings doc).filter (fun n => tagName n = k)).map getTextStrip)) := by
  constructor
  · rw [scrapeContent_structure]
    exact filterMap_sublist_map entryOf entryOfNode entryOf_eq_entryOfNode _
  · intro k hk
    refine ⟨_, scrapeContent_bucket doc k hk, ?_⟩
    rw [filterMap_bucketEntryOf_eq k _ (docHeadings_shape doc)]
    apply List.Sublist.map
    have hconv : (docHeadings doc).filter (fun n => tagName n = k ∧ getTextStrip n ≠ "")
        = (docHeadings doc).filter
            (fun n => decide (tagName n = k) && decide (getTextStrip n ≠ "")) := by
      apply List.filter_congr
      intro x hx
      exact Bool.decide_and _ _
    rw [hconv]
    exact filter_and_sublist _ _ _

/-- Witness for C2 at a concrete document. -/
theorem scrape_document_order_witness :
    "h1" ∈ headingTags
    ∧ List.Sublist (scrapeContent oneHeadingDoc).structure'
        ((docHeadings oneHeadingDoc).map entryOfNode)
    ∧ ∃ vs, (scrapeContent oneHeadingDoc).headings.lookup "h1" = some vs
        ∧ List.Sublist vs (((docHeadings oneHeadingDoc).filter
            (fun n => tagName n = "h1")).map getTextStrip) :=
  ⟨by decide, (scrape_document_order oneHeadingDoc).1,
   (scrape_document_order oneHeadingDoc).2 "h1" (by decide)⟩

/-- C3: the output of the scrape pipeline is unchanged when the entire
contents of every `<script>`/`<style>` subtree are erased — so text inside
those subtrees (headings, titles or heading-like text included) never
appears in `title`, `headings` or `structure` — and the removal performed
before extraction is complete: the walked tree has no script/style element
left. -/
theorem scrape_script_style_inert (doc : List Node) :
    scrapeContent (blankScriptStyle doc) = scrapeContent doc
    ∧ noScriptStyle (stripNodes doc) = true := by
  constructor
  · simp only [scrapeContent, stripNodes_blankScriptStyle]
  · exact noScriptStyle_stripNodes doc

/-- C5: the extraction output is exactly the document-order list of heading
elements whose full text content does not trim to the empty string: headings
whose text content is empty after trimming (whitespace-only included) are
skipped and contribute to neither `headings` nor `structure`. -/
theorem scrape_skips_blank_headings (doc : List Node) :
    (scrapeContent doc).structure'
      = ((docHeadings doc).filter (fun n => pyStrip (getText n) ≠ "")).map entryOfNode
    ∧ (∀ k ∈ headingTags,
        (scrapeContent doc).headings.lookup k
          = some (((docHeadings doc).filter
              (fun n => tagName n = k ∧ pyStrip (getText n) ≠ "")).map getTextStrip)) := by
  constructor
  · rw [scrapeContent_structure, filterMap_entryOf_eq _ (docHeadings_shape doc),
      filter_nonempty_congr]
  · intro k hk
    rw [scrapeContent_bucket doc k hk,
      filterMap_bucketEntryOf_eq k _ (docHeadings_shape doc),
      filter_tag_nonempty_congr]

/-- Witness for C5 at a concrete document. -/
theorem scrape_skips_blank_headings_witness :
    "h2" ∈ headingTags
    ∧ (scrapeContent oneHeadingDoc).structure'
        = ((docHeadings oneHeadingDoc).filter
            (fun n => pyStrip (getText n) ≠ "")).map entryOfNode
    ∧ (scrapeContent oneHeadingDoc).headings.lookup "h2"
        = some (((docHeadings oneHeadingDoc).filter
            (fun n => tagName n = "h2" ∧ pyStrip (getText n) ≠ "")).map getTextStrip) :=
  ⟨by decide, (scrape_skips_blank_headings oneHeadingDoc).1,
   (scrape_skips_blank_headings oneHeadingDoc).2 "h2" (by decide)⟩

/-- C4 counterexample: for `<h1>Hello <b>World</b></h1>` the code extracts
`"HelloWorld"` (each descendant string stripped individually), while the
claimed trim-the-concatenation rule would give `"Hello World"`. -/
theorem heading_text_trim_counterexample :
    (scrapeContent [mixedHeading]).structure'
        = [{ level := 1, text := "HelloWorld" }]
    ∧ pyStrip (getText mixedHeading) = "Hello World"
    ∧ ("HelloWorld" : String) ≠ "Hello World" := by
  refine ⟨?_, ?_, by decide⟩
  · simp [scrapeContent, mixedHeading, stripNodes, findTag, findAllHeadings,
      isHeadingTag, headingTags, getTextStrip, nodesTexts, pyStrip, pyStripList,
      isPySpace, joinStrings, scrapeStep, appendAt, emptyHeadings, levelOfTag,
      digitVal, List.dropWhile]
  · simp [getText, mixedHeading, nodesTexts, joinStrings, pyStrip, pyStripList,
      isPySpace, List.dropWhile]

/-- C4 amended: the extracted heading text is the concatenation of the
element's descendant strings, each individually stripped of leading and
trailing whitespace (so whitespace interior to a single string survives,
but whitespace at the boundary of a descendant string does not). -/
theorem heading_text_per_string_strip (doc : List Node) :
    (scrapeContent doc).structure'.map HeadingEntry.text
      = ((docHeadings doc).filter (fun n => pyStrip (getText n) ≠ "")).map
          (fun n => joinStrings ((nodesTexts [n]).map pyStrip)) := by
  rw [scrapeContent_structure, filterMap_entryOf_eq _ (docHeadings_shape doc),
    filter_nonempty_congr, List.map_map]
  rfl

/-- C6 counterexample: `titleMixedDoc` contains a first `<title>` element
whose text content is `"AB"`, yet the extracted `title` is `None` (JSON
null), not the text content: `Tag.string` returns `None` for a tag with two
children. -/
theorem title_text_content_counterexample :
    findTag "title" (stripNodes titleMixedDoc)
        = some (Node.elem "title" [Node.text "A", Node.elem "b" [Node.text "B"]])
    ∧ getText (Node.elem "title" [Node.text "A", Node.elem "b" [Node.text "B"]]) = "AB"
    ∧ (scrapeContent titleMixedDoc).title = none
    ∧ (none : Option String) ≠ some "AB" := by
  have h : findTag "title" (stripNodes titleMixedDoc)
      = some (Node.elem "title" [Node.text "A", Node.elem "b" [Node.text "B"]]) := by
    simp [titleMixedDoc, stripNodes, findTag]
  refine ⟨h, ?_, ?_, by decide⟩
  · simp [getText, nodesTexts, joinStrings]
  · rw [scrapeContent_title, h]
    simp [stringProp]

/-- C6 amended: a document with no `<title>` element yields exactly the
sentinel `"No title found"`; a `<title>` whose single child is a text node
yields that text; but a present `<title>` does not always yield its text
content — a childless `<title>` yields `None` (JSON null). -/
theorem title_extraction (doc : List Node) :
    (findTag "title" (stripNodes doc) = none →
      (scrapeContent doc).title = some "No title found")
    ∧ (∀ tg s, findTag "title" (stripNodes doc) = some (Node.elem tg [Node.text s]) →
        (scrapeContent doc).title = some s)
    ∧ (∀ tg, findTag "title" (stripNodes doc) = some (Node.elem tg []) →
        (scrapeContent doc).title = none) := by
  refine ⟨?_, ?_, ?_⟩
  · intro h
    rw [scrapeContent_title, h]
  · intro tg s h
    rw [scrapeContent_title, h]
    simp [stringProp]
  · intro tg h
    rw [scrapeContent_title, h]
    simp [stringProp]

/-- Witness for C6 at concrete documents. -/
theorem title_extraction_witness :
    findTag "title" (stripNodes noTitleDoc) = none
    ∧ (scrapeContent noTitleDoc).title = some "No title found"
    ∧ findTag "title" (stripNodes titleTextDoc)
        = some (Node.elem "title" [Node.text "Doc"])
    ∧ (scrapeContent titleTextDoc).title = some "Doc" := by
  have h1 : findTag "title" (stripNodes noTitleDoc) = none := by
    simp [noTitleDoc, stripNodes, findTag]
  have h2 : findTag "title" (stripNodes titleTextDoc)
      = some (Node.elem "title" [Node.text "Doc"]) := by
    simp [titleTextDoc, stripNodes, findTag]
  exact ⟨h1, (title_extraction noTitleDoc).1 h1, h2,
    (title_extraction titleTextDoc).2.1 "title" "Doc" h2⟩

/-- C10 counterexample: `<title><b>Hi</b></title>` has an element child, yet
the returned title is `"Hi"`, not JSON null: `Tag.string` recurses through a
single element child. -/
theorem title_element_child_counterexample :
    findTag "title" (stripNodes titleWrappedDoc)
        = some (Node.elem "title" [Node.elem "b" [Node.text "Hi"]])
    ∧ (scrapeContent titleWrappedDoc).title = some "Hi"
    ∧ (some "Hi" : Option String) ≠ none := by
  have h : findTag "title" (stripNodes titleWrappedDoc)
      = some (Node.elem "title" [Node.elem "b" [Node.text "Hi"]]) := by
    simp [titleWrappedDoc, stripNodes, findTag]
  refine ⟨h, ?_, by decide⟩
  rw [scrapeContent_title, h]
  simp [stringProp]

/-- C10 amended: the title is JSON null exactly when the single-child chain
of `Tag.string` fails: a childless `<title>` or one with two or more
children yields null, while a `<title>` with a single child yields that
child's single-string content recursively — so a single element child
wrapping a string yields the string, not null. -/
theorem title_single_string_chain (doc : List Node) (tg : String) (cs : List Node)
    (hfind : findTag "title" (stripNodes doc) = some (Node.elem tg cs)) :
    (cs = [] → (scrapeContent doc).title = none)
    ∧ (∀ a b rest, cs = a :: b :: rest → (scrapeContent doc).title = none)
    ∧ (∀ c, cs = [c] → (scrapeContent doc).title = stringProp c) := by
  refine ⟨?_, ?_, ?_⟩
  · rintro rfl
    rw [scrapeContent_title, hfind]
    simp [stringProp]
  · rintro a b rest rfl
    rw [scrapeContent_title, hfind]
    simp [stringProp]
  · rintro c rfl
    rw [scrapeContent_title, hfind]
    simp [stringProp]

/-- Witness for C10 at a concrete document. -/
theorem title_single_string_chain_witness :
    findTag "title" (stripNodes titleWrappedDoc)
        = some (Node.elem "title" [Node.elem "b" [Node.text "Hi"]])
    ∧ (scrapeContent titleWrappedDoc).title
        = stringProp (Node.elem "b" [Node.text "Hi"]) := by
  have h : findTag "title" (stripNodes titleWrappedDoc)
      = some (Node.elem "title" [Node.elem "b" [Node.text "Hi"]]) := by
    simp [titleWrappedDoc, stripNodes, findTag]
  exact ⟨h, (title_single_string_chain titleWrappedDoc "title" _ h).2.2
    (Node.elem "b" [Node.text "Hi"]) rfl⟩

/-! ## Endpoint-level fixtures -/

/-- A fetch oracle that is never consulted on the error paths. -/
def unusedFetch : HttpCall → FetchOutcome :=
  fun _ => FetchOutcome.exn "unreachable"

/-- A GET request with no `url` parameter. -/
def getReqNoUrl : Request := ⟨Method.get, [], none⟩

/-- A POST request whose JSON body is an array. -/
def postReqArray : Request := ⟨Method.post, [], some (Json.arr [])⟩

/-- A GET request with a non-empty `url` parameter. -/
def getReqUrl : Request := ⟨Method.get, [("url", "http://example.com")], none⟩

/-- A fetch oracle answering HTTP 404 with an empty page. -/
def fetch404 : HttpCall → FetchOutcome :=
  fun _ => FetchOutcome.resp 404 []

/-- A fetch oracle answering HTTP 304 (not modified) with an empty page. -/
def fetch304 : HttpCall → FetchOutcome :=
  fun _ => FetchOutcome.resp 304 []

/-- A search oracle answering HTTP 200 with an empty JSON object. -/
def searchOk : HttpCall → SearchOutcome :=
  fun _ => SearchOutcome.resp 200 (Except.ok (Json.obj []))

/-- A complete search configuration. -/
def cfgOk : SearchConfig := ⟨some "k", some "c"⟩

/-- A GET search request with a non-empty query. -/
def getReqQuery : Request := ⟨Method.get, [("q", "hi")], none⟩

/-- C7 counterexample: a POST whose JSON body is the array `[]` — so the
`url` parameter is missing — makes `data.get('url', '')` raise
`AttributeError` before the `try` block: the endpoint result is an escaped
exception handled only by the framework, not the claimed 400 JSON
response. -/
theorem scrape_post_nonobject_counterexample :
    api_scrape unusedFetch postReqArray
        = (Except.error "AttributeError: object has no attribute get", [])
    ∧ (Except.error "AttributeError: object has no attribute get"
        : Except String HttpResponse) ≠ Except.ok ⟨400, urlRequiredBody⟩ :=
  ⟨rfl, fun h => Except.noConfusion h⟩

/-- C7 amended: for GET requests, and for POST requests whose JSON body is
an object, a missing or empty `url` yields status 400 with body
`{"error": "URL is required"}`, no outbound call, and no escaped exception;
a POST whose JSON body is not an object instead raises before the check. -/
theorem scrape_missing_url_400 (httpGet : HttpCall → FetchOutcome) (req : Request)
    (h : (req.method = Method.get
          ∧ (req.args.lookup "url" = none ∨ req.args.lookup "url" = some ""))
       ∨ (req.method = Method.post
          ∧ ∃ kvs, req.jsonBody = some (Json.obj kvs)
              ∧ (kvs.lookup "url" = none ∨ kvs.lookup "url" = some (Json.str "")))) :
    api_scrape httpGet req = (Except.ok ⟨400, urlRequiredBody⟩, []) := by
  rcases h with ⟨hm, hu⟩ | ⟨hm, kvs, hb, hu⟩
  · rcases hu with hu | hu <;>
      simp [api_scrape, extractScrapeUrl, hm, hu, jsonTruthy]
  · rcases hu with hu | hu <;>
      simp [api_scrape, extractScrapeUrl, hm, hb, hu, jsonTruthy]

/-- Witness for C7 at a concrete request. -/
theorem scrape_missing_url_400_witness :
    (getReqNoUrl.method = Method.get
      ∧ (getReqNoUrl.args.lookup "url" = none
         ∨ getReqNoUrl.args.lookup "url" = some ""))
    ∧ api_scrape unusedFetch getReqNoUrl = (Except.ok ⟨400, urlRequiredBody⟩, []) :=
  ⟨⟨rfl, Or.inl rfl⟩,
   scrape_missing_url_400 unusedFetch getReqNoUrl (Or.inl ⟨rfl, Or.inl rfl⟩)⟩

/-- C8 counterexample: a fetch that returns HTTP 304 — a non-2xx status —
does not yield a 500 error: `raise_for_status` raises only for 4xx/5xx, so
the endpoint returns the 200 success envelope, `content` field included. -/
theorem scrape_non2xx_counterexample :
    (api_scrape fetch304 getReqUrl).1
        = Except.ok ⟨200, successBody "http://example.com" (scrapeContent [])⟩
    ∧ jsonLookup (successBody "http://example.com" (scrapeContent [])) "content"
        = some (contentToJson (scrapeContent []))
    ∧ (200 : Nat) ≠ 500 :=
  ⟨rfl, rfl, by decide⟩

/-- C8 amended: when the fetch raises, or returns a status in `400..599`
(the statuses for which `raise_for_status` raises), the endpoint returns 500
with the single-key body `{"error": <cause>}` — no `content` field, no
partial structure; statuses outside `400..599` (2xx, but also e.g. 304)
proceed to the 200 success envelope instead. -/
theorem scrape_fetch_failure_500 (httpGet : HttpCall → FetchOutcome)
    (req : Request) (u : String)
    (hm : req.method = Method.get) (hu : req.args.lookup "url" = some u)
    (hne : u ≠ "") :
    (∀ m, httpGet ⟨u, [], some scrapeUserAgent, some 10⟩ = FetchOutcome.exn m →
        (api_scrape httpGet req).1 = Except.ok ⟨500, errorBody m⟩)
    ∧ (∀ s doc, httpGet ⟨u, [], some scrapeUserAgent, some 10⟩ = FetchOutcome.resp s doc →
        400 ≤ s → s < 600 →
        (api_scrape httpGet req).1 = Except.ok ⟨500, errorBody (httpErrorMsg s u)⟩)
    ∧ (∀ s doc, httpGet ⟨u, [], some scrapeUserAgent, some 10⟩ = FetchOutcome.resp s doc →
        ¬(400 ≤ s ∧ s < 600) →
        (api_scrape httpGet req).1 = Except.ok ⟨200, successBody u (scrapeContent doc)⟩)
    ∧ (∀ m, jsonLookup (errorBody m) "content" = none
        ∧ (errorBody m) = Json.obj [("error", Json.str m)]) := by
  refine ⟨?_, ?_, ?_, fun m => ⟨rfl, rfl⟩⟩
  · intro m hf
    simp [api_scrape, extractScrapeUrl, hm, hu, jsonTruthy, hne, hf]
  · intro s doc hf h4 h6
    simp [api_scrape, extractScrapeUrl, hm, hu, jsonTruthy, hne, hf,
      raiseForStatus, h4, h6]
  · intro s doc hf hrange
    simp [api_scrape, extractScrapeUrl, hm, hu, jsonTruthy, hne, hf,
      raiseForStatus, hrange]

/-- Witness for C8 at a concrete request and oracle (HTTP 404). -/
theorem scrape_fetch_failure_500_witness :
    getReqUrl.method = Method.get
    ∧ getReqUrl.args.lookup "url" = some "http://example.com"
    ∧ ("http://example.com" : String) ≠ ""
    ∧ fetch404 ⟨"http://example.com", [], some scrapeUserAgent, some 10⟩
        = FetchOutcome.resp 404 []
    ∧ (api_scrape fetch404 getReqUrl).1
        = Except.ok ⟨500, errorBody (httpErrorMsg 404 "http://example.com")⟩ :=
  ⟨rfl, rfl, by decide, rfl,
   (scrape_fetch_failure_500 fetch404 getReqUrl "http://example.com" rfl rfl
      (by decide)).2.1 404 [] rfl (by decide) (by decide)⟩

/-- C9 counterexample: the search endpoint issues its one outbound call with
no timeout at all, not the claimed fixed 10-second timeout. -/
theorem search_no_timeout_counterexample :
    (api_search searchOk cfgOk getReqQuery).2
        = [⟨googleSearchApiUrl,
            [("key", Json.str "k"), ("cx", Json.str "c"),
             ("q", Json.str "hi"), ("num", Json.num 10)], none, none⟩]
    ∧ (⟨googleSearchApiUrl,
         [("key", Json.str "k"), ("cx", Json.str "c"),
          ("q", Json.str "hi"), ("num", Json.num 10)], none, none⟩ : HttpCall).timeout
        ≠ some 10 :=
  ⟨rfl, by decide⟩

/-- C9 amended: every outbound call issued by `/api/scrape` carries
`timeout=10`, but every outbound call issued by `/api/search` carries no
timeout (line 52 passes no timeout keyword), so only the scrape endpoint's
fetch is bounded. -/
theorem outbound_call_timeouts (httpGet : HttpCall → FetchOutcome)
    (sGet : HttpCall → SearchOutcome) (cfg : SearchConfig) (req req' : Request) :
    (∀ c ∈ (api_scrape httpGet req).2, c.timeout = some 10)
    ∧ (∀ c ∈ (api_search sGet cfg req').2, c.timeout = none) := by
  have h1 : (api_scrape httpGet req).2 = []
      ∨ ∃ u, (api_scrape httpGet req).2
          = [⟨u, [], some scrapeUserAgent, some 10⟩] := by
    unfold api_scrape
    repeat' split
    all_goals
      first
        | exact Or.inl rfl
        | exact Or.inr ⟨_, rfl⟩
  have h2 : (api_search sGet cfg req').2 = []
      ∨ ∃ ps, (api_search sGet cfg req').2
          = [⟨googleSearchApiUrl, ps, none, none⟩] := by
    unfold api_search
    repeat' split
    all_goals
      first
        | exact Or.inl rfl
        | exact Or.inr ⟨_, rfl⟩
  constructor
  · intro c hc
    rcases h1 with h | ⟨u, h⟩
    · rw [h] at hc
      cases hc
    · rw [h] at hc
      rw [List.mem_singleton.mp hc]
  · intro c hc
    rcases h2 with h | ⟨ps, h⟩
    · rw [h] at hc
      cases hc
    · rw [h] at hc
      rw [List.mem_singleton.mp hc]

/-- Witness for C9 at concrete requests whose traces are non-empty. -/
theorem outbound_call_timeouts_witness :
    (⟨"http://example.com", [], some scrapeUserAgent, some 10⟩ : HttpCall)
        ∈ (api_scrape fetch404 getReqUrl).2
    ∧ (⟨googleSearchApiUrl,
         [("key", Json.str "k"), ("cx", Json.str "c"),
          ("q", Json.str "hi"), ("num", Json.num 10)], none, none⟩ : HttpCall)
        ∈ (api_search searchOk cfgOk getReqQuery).2
    ∧ (⟨"http://example.com", [], some scrapeUserAgent, some 10⟩ : HttpCall).timeout
        = some 10
    ∧ (⟨googleSearchApiUrl,
         [("key", Json.str "k"), ("cx", Json.str "c"),
          ("q", Json.str "hi"), ("num", Json.num 10)], none, none⟩ : HttpCall).timeout
        = none := by
  have h1 : (⟨"http://example.com", [], some scrapeUserAgent, some 10⟩ : HttpCall)
      ∈ (api_scrape fetch404 getReqUrl).2 := by
    show _ ∈ (api_scrape fetch404 getReqUrl).2
    rw [show (api_scrape fetch404 getReqUrl).2
        = [⟨"http://example.com", [], some scrapeUserAgent, some 10⟩] from rfl]
    exact List.mem_singleton.mpr rfl
  have h2 : (⟨googleSearchApiUrl,
      [("key", Json.str "k"), ("cx", Json.str "c"),
       ("q", Json.str "hi"), ("num", Json.num 10)], none, none⟩ : HttpCall)
      ∈ (api_search searchOk cfgOk getReqQuery).2 := by
    rw [show (api_search searchOk cfgOk getReqQuery).2
        = [⟨googleSearchApiUrl,
            [("key", Json.str "k"), ("cx", Json.str "c"),
             ("q", Json.str "hi"), ("num", Json.num 10)], none, none⟩] from rfl]
    exact List.mem_singleton.mpr rfl
  exact ⟨h1, h2,
    (outbound_call_timeouts fetch404 searchOk cfgOk getReqUrl getReqQuery).1 _ h1,
    (outbound_call_timeouts fetch404 searchOk cfgOk getReqUrl getReqQuery).2 _ h2⟩

end CustomSearch
